import Mathlib

/-!
Shallow embedding of `src/expressions.ts` of handlebars-to-jsx.

Input side: the subset of the Glimmer AST that the module consumes.
Output side: the subset of the Babel AST that the module produces, as one
node type (Babel nodes are plain JS objects; the TS union types only
restrict which constructors may appear where).

The external collaborators (`convertElement` and `createFragment` from
`./elements`, `resolveBlockStatement` from `./blockStatements`,
`createComment` from `./comments`) live in sibling modules whose source is
not included; they are modelled from the spec as total abstract
constructors.

A thrown JS `Error` is modelled as `Except.error` carrying the message
string that the source passes to `new Error(...)`.
-/

namespace HandlebarsToJsx

/-- Element node of the input AST. The expression core never inspects it;
it only hands it to the external Element Converter. -/
structure GElement where
  tag : String

/-- Block statement node of the input AST; only handed to the external
Block Resolver. -/
structure GBlock where
  name : String

/-- The two comment variants of the input AST
(`MustacheCommentStatement` and `CommentStatement`). -/
inductive GComment : Type
  | mustacheComment (value : String)
  | htmlComment (value : String)

mutual
/-- Glimmer `Expression`: `SubExpression`, `PathExpression` or a literal.
The union is closed, so the defensive `default` branch of
`resolveExpression` in the source is unreachable and has no arm here. -/
inductive GExpr : Type
  | subExpression (call : GCall)
  | pathExpression (original : String) (parts : List String)
  | booleanLiteral (value : Bool)
  | nullLiteral
  | numberLiteral (value : Int)
  | stringLiteral (value : String)
  | undefinedLiteral

/-- The shape shared by `MustacheStatement` and `SubExpression`: a path, a
list of positional params and a hash of named arguments. -/
inductive GCall : Type
  | mk (path : GExpr) (params : GParams) (hash : GHash)

/-- `params : Expression[]`. -/
inductive GParams : Type
  | nil
  | cons (head : GExpr) (tail : GParams)

/-- `hash.pairs : HashPair[]`, each pair holding a string key and an
expression value. -/
inductive GHash : Type
  | nil
  | cons (key : String) (value : GExpr) (tail : GHash)
end

/-- The `path` field of a call node. -/
def GCall.path : GCall → GExpr
  | .mk p _ _ => p

/-- The `params` field of a call node. -/
def GCall.params : GCall → GParams
  | .mk _ ps _ => ps

/-- The `hash` field of a call node. -/
def GCall.hash : GCall → GHash
  | .mk _ _ h => h

/-- `params.length`. -/
def GParams.length : GParams → Nat
  | .nil => 0
  | .cons _ tail => 1 + tail.length

/-- Glimmer `Statement`, covering the variants dispatched on by
`resolveStatement` and `resolveElementChild`. A `MustacheStatement`
carries its path, params and hash as a `GCall` (its `escaped`, `strip`
and location fields are never read by the module and are omitted). -/
inductive GStatement : Type
  | elementNode (element : GElement)
  | textNode (chars : String)
  | mustacheStatement (call : GCall)
  | blockStatement (block : GBlock)
  | mustacheCommentStatement (value : String)
  | commentStatement (value : String)

/-- Babel output node. `objectExpression` holds a list of
`objectProperty` nodes, mirroring `Babel.objectExpression` applied to a
list of `Babel.objectProperty`. The `jsxElementResult`, `blockResult`,
`fragmentResult` and `jsxCommentResult` constructors are the abstract
outputs of the four external collaborators. -/
inductive BNode : Type
  | stringLiteral (value : String)
  | booleanLiteral (value : Bool)
  | nullLiteral
  | numericLiteral (value : Int)
  | identifier (name : String)
  | memberExpression (obj : BNode) (prop : BNode)
  | callExpression (callee : BNode) (args : List BNode)
  | objectProperty (key : BNode) (value : BNode)
  | objectExpression (properties : List BNode)
  | binaryExpression (op : String) (left : BNode) (right : BNode)
  | jsxText (value : String)
  | jsxExpressionContainer (expression : BNode)
  | jsxElementResult (source : GElement)
  | blockResult (source : GBlock)
  | fragmentResult (children : List BNode)
  | jsxCommentResult (source : GComment)

/-- Result shape of `resolveElementChild` and `prepareJsxText`: the source
returns either a single node or an array of nodes. -/
inductive ChildResult : Type
  | one (child : BNode)
  | many (children : List BNode)

/-- Modelled from the spec: the external Element Converter
(`convertElement` from `./elements`, source not included). Per the spec
it returns one markup element node for the given element node; modelled
as a total abstract wrapper. -/
def convertElement (element : GElement) : BNode :=
  BNode.jsxElementResult element

/-- Modelled from the spec: the external Block Resolver
(`resolveBlockStatement` from `./blockStatements`, source not included).
Per the spec it resolves a block construct into an expression; modelled
as a total abstract wrapper. -/
def resolveBlockStatement (block : GBlock) : BNode :=
  BNode.blockResult block

/-- Modelled from the spec: the external Comment Converter
(`createComment` from `./comments`, source not included). Per the spec it
produces a markup-safe representation of a comment for child position;
modelled as a total abstract wrapper. -/
def createComment (comment : GComment) : BNode :=
  BNode.jsxCommentResult comment

/-- Modelled from the spec: the external Fragment Constructor
(`createFragment` from `./elements`, source not included). Per the spec
it wraps a list of sibling markup children into one expression; modelled
as a total abstract wrapper. -/
def createFragment (children : List BNode) : BNode :=
  BNode.fragmentResult children

/-- `expression.path.original?.toString() ?? ...` reaches the `??`
fallback exactly when `original` is nullish: a `SubExpression` path has no
`original` property, a `NullLiteral` has `original = null`, an
`UndefinedLiteral` has `original = undefined`. The other variants carry a
non-nullish `original` (the path string, or the literal value), converted
by `toString`. -/
def pathOriginalToString : GExpr → Option String
  | .subExpression _ => none
  | .pathExpression original _ => some original
  | .booleanLiteral b => some (if b then "true" else "false")
  | .nullLiteral => none
  | .numberLiteral n => some (toString n)
  | .stringLiteral s => some s
  | .undefinedLiteral => none

/-- `appendToPath`: `Babel.memberExpression(path, append)`. -/
def appendToPath (path append : BNode) : BNode :=
  BNode.memberExpression path append

/-- `prependToPath`: `Babel.memberExpression(prepend, path)`. -/
def prependToPath (path prepend : BNode) : BNode :=
  BNode.memberExpression prepend path

/-- `createPath`, applied to `pathExpression.parts`. Throws
`new Error` on an empty parts array; otherwise starts from an identifier
for the first part and appends every later part with `appendToPath`
(the source `for` loop is this left fold). -/
def createPath (parts : List String) : Except String BNode :=
  match parts with
  | [] => Except.error "Unexpected empty expression parts"
  | p :: rest =>
      Except.ok
        (rest.foldl (fun acc part => appendToPath acc (BNode.identifier part))
          (BNode.identifier p))

mutual
/-- `resolveExpression`: dispatch on the expression variant. -/
def resolveExpression : GExpr → Except String BNode
  | .subExpression call => resolveHelper call
  | .pathExpression _ parts => createPath parts
  | .booleanLiteral b => Except.ok (BNode.booleanLiteral b)
  | .nullLiteral => Except.ok BNode.nullLiteral
  | .numberLiteral n => Except.ok (BNode.numericLiteral n)
  | .stringLiteral s => Except.ok (BNode.stringLiteral s)
  | .undefinedLiteral => Except.ok (BNode.identifier "undefined")

/-- `resolveHelper`: map `resolveExpression` over the params, build the
hash object, wrap it as the `options` object under the literal key
`"hash"`, push it as the last argument, and call an identifier named after
`path.original?.toString() ?? ...` with the fallback name `undefined`. -/
def resolveHelper : GCall → Except String BNode
  | .mk path params hashArgs =>
      match resolveParams params with
      | .error msg => Except.error msg
      | .ok ps =>
          match resolveHashPairs hashArgs with
          | .error msg => Except.error msg
          | .ok pairs =>
              Except.ok
                (BNode.callExpression
                  (BNode.identifier ((pathOriginalToString path).getD "undefined"))
                  (ps ++
                    [BNode.objectExpression
                      [BNode.objectProperty (BNode.stringLiteral "hash")
                        (BNode.objectExpression pairs)]]))

/-- `expression.params.map(resolveExpression)`: left to right, first
thrown error aborts. -/
def resolveParams : GParams → Except String (List BNode)
  | .nil => Except.ok []
  | .cons e tail =>
      match resolveExpression e with
      | .error msg => Except.error msg
      | .ok r =>
          match resolveParams tail with
          | .error msg => Except.error msg
          | .ok rs => Except.ok (r :: rs)

/-- `expression.hash.pairs.map(...)`: each pair becomes
`Babel.objectProperty(Babel.stringLiteral(pair.key), resolveExpression(pair.value))`. -/
def resolveHashPairs : GHash → Except String (List BNode)
  | .nil => Except.ok []
  | .cons key value tail =>
      match resolveExpression value with
      | .error msg => Except.error msg
      | .ok r =>
          match resolveHashPairs tail with
          | .error msg => Except.error msg
          | .ok rs => Except.ok (BNode.objectProperty (BNode.stringLiteral key) r :: rs)
end

/-- `resolveStatement`: dispatch on the statement variant. The only other
Glimmer statement variant, `PartialStatement`, hits the defensive
`default` branch of the source switch and is omitted here. -/
def resolveStatement : GStatement → Except String BNode
  | .elementNode element => Except.ok (convertElement element)
  | .textNode chars => Except.ok (BNode.stringLiteral chars)
  | .mustacheStatement call =>
      if call.params.length > 0 then resolveHelper call
      else resolveExpression call.path
  | .blockStatement block => Except.ok (resolveBlockStatement block)
  | .mustacheCommentStatement _ =>
      Except.error "Top level comments currently is not supported"
  | .commentStatement _ =>
      Except.error "Top level comments currently is not supported"

/-- The split performed by `text.split(regex)` in `prepareJsxText`. The
source regex is written with the group `(:?` + open brace + `|` + close
brace + `)`: a capturing group (so the delimiters are retained as pieces)
matching either an OPTIONAL COLON followed by an open brace, or a close
brace. At each position the engine therefore matches, in order of
preference: colon + open brace (two characters), a lone open brace, or a
lone close brace. Empty pieces between adjacent matches and at both ends
are kept, as JS `String.prototype.split` keeps them. -/
def splitTextAux (acc : List Char) : List Char → List String
  | [] => [String.mk acc.reverse]
  | ':' :: '\x7b' :: rest => String.mk acc.reverse :: ":\x7b" :: splitTextAux [] rest
  | '\x7b' :: rest => String.mk acc.reverse :: "\x7b" :: splitTextAux [] rest
  | '\x7d' :: rest => String.mk acc.reverse :: "\x7d" :: splitTextAux [] rest
  | c :: rest => splitTextAux (c :: acc) rest

/-- `const parts = text.split(...)` in `prepareJsxText`. -/
def splitParts (text : String) : List String :=
  splitTextAux [] text.data

/-- `prepareJsxText`: if the split yields a single piece, return one JSX
text node with the whole string; otherwise map each piece, wrapping a
piece that is exactly an open or close brace in an expression container
around a string literal, and turning every other piece into a JSX text
node. -/
def prepareJsxText (text : String) : ChildResult :=
  let parts := splitParts text
  if parts.length = 1 then ChildResult.one (BNode.jsxText text)
  else
    ChildResult.many
      (parts.map fun item =>
        if item = "\x7b" ∨ item = "\x7d" then
          BNode.jsxExpressionContainer (BNode.stringLiteral item)
        else BNode.jsxText item)

/-- `resolveElementChild`: dispatch on the statement variant; anything
that is not an element, text or comment goes through `resolveStatement`
and is wrapped in a JSX expression container. -/
def resolveElementChild : GStatement → Except String ChildResult
  | .elementNode element => Except.ok (ChildResult.one (convertElement element))
  | .textNode chars => Except.ok (prepareJsxText chars)
  | .mustacheCommentStatement value =>
      Except.ok (ChildResult.one (createComment (GComment.mustacheComment value)))
  | .commentStatement value =>
      Except.ok (ChildResult.one (createComment (GComment.htmlComment value)))
  | s =>
      match resolveStatement s with
      | .error msg => Except.error msg
      | .ok e => Except.ok (ChildResult.one (BNode.jsxExpressionContainer e))

/-- `createChildren`: reduce over the body, flattening an array result
into the accumulator and appending a single result. -/
def createChildren (body : List GStatement) : Except String (List BNode) :=
  body.foldlM
    (fun acc statement =>
      match resolveElementChild statement with
      | .error msg => Except.error msg
      | .ok (ChildResult.one c) => Except.ok (acc ++ [c])
      | .ok (ChildResult.many cs) => Except.ok (acc ++ cs))
    []

/-- `createRootChildren`: a single statement is resolved directly via
`resolveStatement`; otherwise the resolved children are wrapped by the
external Fragment Constructor. -/
def createRootChildren (body : List GStatement) : Except String BNode :=
  match body with
  | [single] => resolveStatement single
  | _ =>
      match createChildren body with
      | .error msg => Except.error msg
      | .ok children => Except.ok (createFragment children)

/-- The reducer of `createConcat`: a `null` accumulator (modelled `none`)
is replaced by the resolved item; otherwise the resolved item is combined
with the accumulator by a binary plus expression. -/
def concatStep (acc : Option BNode) (item : GStatement) : Except String (Option BNode) :=
  match resolveStatement item with
  | .error msg => Except.error msg
  | .ok r =>
      match acc with
      | none => Except.ok (some r)
      | some a => Except.ok (some (BNode.binaryExpression "+" a r))

/-- `createConcat`: reduce with initial accumulator `null`. The source
casts the reduce result (which is still `null` for an empty parts array)
to its declared expression return type; the model keeps the honest type
`Option BNode`, where `none` is that `null`. -/
def createConcat (parts : List GStatement) : Except String (Option BNode) :=
  parts.foldlM concatStep none

/-- Resolving a list of statements left to right, first error aborts.
Used to phrase hypotheses about `createConcat`. -/
def resolveStatementList : List GStatement → Except String (List BNode)
  | [] => Except.ok []
  | s :: rest =>
      match resolveStatement s with
      | .error msg => Except.error msg
      | .ok r =>
          match resolveStatementList rest with
          | .error msg => Except.error msg
          | .ok rs => Except.ok (r :: rs)

/-- Every pair produced by `resolveHashPairs` is an object property whose
key is a string literal. -/
theorem resolveHashPairs_keys : ∀ (hashArgs : GHash) (pairs : List BNode),
    resolveHashPairs hashArgs = Except.ok pairs →
    ∀ p ∈ pairs, ∃ k v, p = BNode.objectProperty (BNode.stringLiteral k) v
  | .nil, pairs, hh => by
      simp only [resolveHashPairs, Except.ok.injEq] at hh
      subst hh
      simp
  | .cons key value tail, pairs, hh => by
      simp only [resolveHashPairs] at hh
      cases hv : resolveExpression value with
      | error msg => simp [hv] at hh
      | ok r =>
          cases ht : resolveHashPairs tail with
          | error msg => simp [hv, ht] at hh
          | ok rs =>
              simp only [hv, ht, Except.ok.injEq] at hh
              subst hh
              intro p hp
              rcases List.mem_cons.mp hp with hp0 | hpr
              · exact ⟨key, r, hp0⟩
              · exact resolveHashPairs_keys tail rs ht p hpr

/-- C2: a helper invocation with `n` positional arguments and any list of
named-argument pairs produces a call whose arguments are exactly the `n`
resolved positional arguments in order, followed by one final object
argument with a single property keyed by the literal string `"hash"`
holding the object of (string-literal key, resolved value) pairs; the
final argument is present even with zero named arguments. -/
theorem resolveHelper_args_shape (path : GExpr) (params : GParams) (hashArgs : GHash)
    (ps pairs : List BNode)
    (hp : resolveParams params = Except.ok ps)
    (hh : resolveHashPairs hashArgs = Except.ok pairs) :
    resolveHelper (GCall.mk path params hashArgs) =
      Except.ok
        (BNode.callExpression
          (BNode.identifier ((pathOriginalToString path).getD "undefined"))
          (ps ++
            [BNode.objectExpression
              [BNode.objectProperty (BNode.stringLiteral "hash")
                (BNode.objectExpression pairs)]])) ∧
    ∀ p ∈ pairs, ∃ k v, p = BNode.objectProperty (BNode.stringLiteral k) v := by
  refine ⟨?_, resolveHashPairs_keys hashArgs pairs hh⟩
  simp only [resolveHelper, hp, hh]

/-- Witness for C2: two positional arguments and one named argument give a
three-argument call; zero named arguments still leave the hash carrier. -/
theorem resolveHelper_args_shape_witness :
    resolveParams
        (GParams.cons (GExpr.stringLiteral "x")
          (GParams.cons (GExpr.numberLiteral 2) GParams.nil)) =
      Except.ok [BNode.stringLiteral "x", BNode.numericLiteral 2] ∧
    resolveHashPairs (GHash.cons "k" (GExpr.booleanLiteral true) GHash.nil) =
      Except.ok [BNode.objectProperty (BNode.stringLiteral "k") (BNode.booleanLiteral true)] ∧
    resolveHelper
        (GCall.mk (GExpr.pathExpression "f" ["f"])
          (GParams.cons (GExpr.stringLiteral "x")
            (GParams.cons (GExpr.numberLiteral 2) GParams.nil))
          (GHash.cons "k" (GExpr.booleanLiteral true) GHash.nil)) =
      Except.ok
        (BNode.callExpression (BNode.identifier "f")
          [BNode.stringLiteral "x", BNode.numericLiteral 2,
            BNode.objectExpression
              [BNode.objectProperty (BNode.stringLiteral "hash")
                (BNode.objectExpression
                  [BNode.objectProperty (BNode.stringLiteral "k")
                    (BNode.booleanLiteral true)])]]) :=
  ⟨rfl, rfl,
    (resolveHelper_args_shape (GExpr.pathExpression "f" ["f"])
        (GParams.cons (GExpr.stringLiteral "x")
          (GParams.cons (GExpr.numberLiteral 2) GParams.nil))
        (GHash.cons "k" (GExpr.booleanLiteral true) GHash.nil)
        [BNode.stringLiteral "x", BNode.numericLiteral 2]
        [BNode.objectProperty (BNode.stringLiteral "k") (BNode.booleanLiteral true)]
        rfl rfl).1⟩

/-- C3: a nonempty segment list builds a left-associative member-access
chain starting from a bare identifier; in particular one, two and three
segments give `a`, `a.b` and `(a.b).c`. -/
theorem createPath_left_assoc (a b c p : String) (rest : List String) :
    createPath (p :: rest) =
      Except.ok
        (rest.foldl (fun acc part => BNode.memberExpression acc (BNode.identifier part))
          (BNode.identifier p)) ∧
    createPath [a] = Except.ok (BNode.identifier a) ∧
    createPath [a, b] =
      Except.ok (BNode.memberExpression (BNode.identifier a) (BNode.identifier b)) ∧
    createPath [a, b, c] =
      Except.ok
        (BNode.memberExpression
          (BNode.memberExpression (BNode.identifier a) (BNode.identifier b))
          (BNode.identifier c)) :=
  ⟨rfl, rfl, rfl, rfl⟩

/-- C4: an empty segment list makes `createPath` fail with the
empty-path-segments error rather than return any default expression. -/
theorem createPath_empty_fails :
    createPath [] = Except.error "Unexpected empty expression parts" := rfl

/-- C5: both comment variants fail in `resolveStatement` with the
top-level-comment error, while `resolveElementChild` on the same nodes
never takes that branch and instead delegates to the external Comment
Converter, succeeding. -/
theorem comment_statement_vs_child (value : String) :
    resolveStatement (GStatement.mustacheCommentStatement value) =
      Except.error "Top level comments currently is not supported" ∧
    resolveStatement (GStatement.commentStatement value) =
      Except.error "Top level comments currently is not supported" ∧
    resolveElementChild (GStatement.mustacheCommentStatement value) =
      Except.ok (ChildResult.one (createComment (GComment.mustacheComment value))) ∧
    resolveElementChild (GStatement.commentStatement value) =
      Except.ok (ChildResult.one (createComment (GComment.htmlComment value))) :=
  ⟨rfl, rfl, rfl, rfl⟩

/-- C6: a single-element statement list resolves through
`createRootChildren` exactly as `resolveStatement` on that element; no
fragment is introduced. -/
theorem createRootChildren_single (n : GStatement) :
    createRootChildren [n] = resolveStatement n := rfl

/-- Folding the concat reducer from a non-null accumulator combines each
further resolved part on the right of a binary plus. -/
theorem foldlM_concatStep (ps : List GStatement) (rs : List BNode) (a : BNode)
    (hs : resolveStatementList ps = Except.ok rs) :
    List.foldlM concatStep (some a) ps =
      Except.ok (some (rs.foldl (fun x r => BNode.binaryExpression "+" x r) a)) := by
  induction ps generalizing rs a with
  | nil =>
      simp only [resolveStatementList, Except.ok.injEq] at hs
      subst hs
      rfl
  | cons q qs ih =>
      simp only [resolveStatementList] at hs
      cases hq : resolveStatement q with
      | error msg => simp [hq] at hs
      | ok r =>
          cases ht : resolveStatementList qs with
          | error msg => simp [hq, ht] at hs
          | ok rs2 =>
              simp only [hq, ht, Except.ok.injEq] at hs
              subst hs
              rw [List.foldlM_cons]
              have hstep : concatStep (some a) q =
                  Except.ok (some (BNode.binaryExpression "+" a r)) := by
                simp [concatStep, hq]
              rw [hstep]
              exact ih rs2 (BNode.binaryExpression "+" a r) ht

/-- C7: on a nonempty parts list, `createConcat` folds left to right: the
resolved first part is the accumulator and every further resolved part is
combined with it by a binary plus, so three parts give
`(resolve a + resolve b) + resolve c`. -/
theorem createConcat_left_fold (p : GStatement) (ps : List GStatement)
    (r0 : BNode) (rs : List BNode)
    (h0 : resolveStatement p = Except.ok r0)
    (hs : resolveStatementList ps = Except.ok rs) :
    createConcat (p :: ps) =
      Except.ok (some (rs.foldl (fun x r => BNode.binaryExpression "+" x r) r0)) := by
  unfold createConcat
  rw [List.foldlM_cons]
  have hstep : concatStep none p = Except.ok (some r0) := by simp [concatStep, h0]
  rw [hstep]
  exact foldlM_concatStep ps rs r0 hs

/-- Witness for C7: three text parts concatenate left-associatively. -/
theorem createConcat_left_fold_witness :
    resolveStatement (GStatement.textNode "a") = Except.ok (BNode.stringLiteral "a") ∧
    resolveStatementList [GStatement.textNode "b", GStatement.textNode "c"] =
      Except.ok [BNode.stringLiteral "b", BNode.stringLiteral "c"] ∧
    createConcat [GStatement.textNode "a", GStatement.textNode "b", GStatement.textNode "c"] =
      Except.ok
        (some
          (BNode.binaryExpression "+"
            (BNode.binaryExpression "+" (BNode.stringLiteral "a") (BNode.stringLiteral "b"))
            (BNode.stringLiteral "c"))) :=
  ⟨rfl, rfl,
    createConcat_left_fold (GStatement.textNode "a")
      [GStatement.textNode "b", GStatement.textNode "c"]
      (BNode.stringLiteral "a")
      [BNode.stringLiteral "b", BNode.stringLiteral "c"] rfl rfl⟩

/-- C8: when the helper path carries no resolvable name (nullish
`original`), the callee falls back to the identifier `undefined` and the
call still succeeds whenever its arguments resolve. -/
theorem resolveHelper_missing_callee (path : GExpr) (params : GParams) (hashArgs : GHash)
    (ps pairs : List BNode)
    (hnone : pathOriginalToString path = none)
    (hp : resolveParams params = Except.ok ps)
    (hh : resolveHashPairs hashArgs = Except.ok pairs) :
    resolveHelper (GCall.mk path params hashArgs) =
      Except.ok
        (BNode.callExpression (BNode.identifier "undefined")
          (ps ++
            [BNode.objectExpression
              [BNode.objectProperty (BNode.stringLiteral "hash")
                (BNode.objectExpression pairs)]])) := by
  simp only [resolveHelper, hp, hh, hnone, Option.getD_none]

/-- Witness for C8: an undefined-literal path has no name; the call is
built with the callee `undefined` and no error. -/
theorem resolveHelper_missing_callee_witness :
    pathOriginalToString GExpr.undefinedLiteral = none ∧
    resolveHelper (GCall.mk GExpr.undefinedLiteral GParams.nil GHash.nil) =
      Except.ok
        (BNode.callExpression (BNode.identifier "undefined")
          [BNode.objectExpression
            [BNode.objectProperty (BNode.stringLiteral "hash")
              (BNode.objectExpression [])]]) :=
  ⟨rfl,
    resolveHelper_missing_callee GExpr.undefinedLiteral GParams.nil GHash.nil [] []
      rfl rfl rfl⟩

/-- C9: whenever the split produces several pieces, the output list of
`prepareJsxText` has one node per piece and every empty piece is kept, in
place, as an empty JSX text node — never dropped. -/
theorem prepareJsxText_keeps_empty_pieces (s : String) (l : List BNode)
    (h : prepareJsxText s = ChildResult.many l) :
    l.length = (splitParts s).length ∧
    ∀ i : Nat, (splitParts s)[i]? = some "" → l[i]? = some (BNode.jsxText "") := by
  simp only [prepareJsxText] at h
  by_cases hlen : (splitParts s).length = 1
  · rw [if_pos hlen] at h
    exact absurd h (by simp)
  · rw [if_neg hlen] at h
    injection h with h
    subst h
    constructor
    · simp
    · intro i hi
      rw [List.getElem?_map, hi]
      rfl

/-- Witness for C9: the two-brace input splits into five pieces with three
empty ones, each kept as an empty JSX text node. -/
theorem prepareJsxText_keeps_empty_pieces_witness :
    prepareJsxText "\x7b\x7d" =
      ChildResult.many
        [BNode.jsxText "", BNode.jsxExpressionContainer (BNode.stringLiteral "\x7b"),
          BNode.jsxText "", BNode.jsxExpressionContainer (BNode.stringLiteral "\x7d"),
          BNode.jsxText ""] ∧
    (splitParts "\x7b\x7d")[2]? = some "" ∧
    [BNode.jsxText "", BNode.jsxExpressionContainer (BNode.stringLiteral "\x7b"),
      BNode.jsxText "", BNode.jsxExpressionContainer (BNode.stringLiteral "\x7d"),
      BNode.jsxText ""][2]? = some (BNode.jsxText "") :=
  ⟨rfl, rfl, (prepareJsxText_keeps_empty_pieces "\x7b\x7d" _ rfl).2 2 rfl⟩

/-- C1: the claimed example input splits into text `a`, container of the
open brace, text `b`, container of the close brace, text `c`; but on an
input where an open brace is preceded by a colon the source regex (whose
group starts with an optional colon, a typo for a non-capturing group
marker) consumes the colon and the brace as one two-character delimiter,
which is then emitted as a plain JSX text node, leaving the brace
unescaped — contradicting the universally quantified claim. -/
theorem prepareJsxText_split_behavior :
    prepareJsxText "a\x7bb\x7dc" =
      ChildResult.many
        [BNode.jsxText "a", BNode.jsxExpressionContainer (BNode.stringLiteral "\x7b"),
          BNode.jsxText "b", BNode.jsxExpressionContainer (BNode.stringLiteral "\x7d"),
          BNode.jsxText "c"] ∧
    prepareJsxText "a:\x7bb" =
      ChildResult.many [BNode.jsxText "a", BNode.jsxText ":\x7b", BNode.jsxText "b"] :=
  ⟨rfl, rfl⟩

/-- C10: on the empty parts list `createConcat` returns the `null`
accumulator (modelled `none`) unchanged — neither an expression nor an
error, so the declared expression return type of the source is not
honored at this edge. -/
theorem createConcat_empty_null :
    createConcat [] = Except.ok none := rfl

end HandlebarsToJsx
